import Mathlib

/-!
Verification of the validation and error-detection core of `textual-snapshots`
(`src/textual_snapshots/`: `interactions.py`, `comparison.py`, `quality.py`,
`detection.py`, `validation.py`, `utils.py`) against its specification.

Shallow embedding conventions:
* Python `float` arithmetic is modelled with `ℚ` (all constants in the code
  are short decimals, and no claim depends on binary rounding).
* File-system state is modelled by explicit structures (`FileD`) carrying the
  observations the code makes of a file: existence, byte size, raw content,
  suffix, decodability, and the result of XML parsing.
* SHA-256 hashing (`utils.calculate_file_hash`) is modelled injectively by the
  file content itself; the code only ever compares hashes for equality.
* Heterogeneous `dict[str, Any]` metadata/metrics payloads are not modelled;
  no claim inspects them beyond the list of analysis methods recorded, which
  is kept explicitly.
-/

/-- Python substring test `needle in hay` (for non-empty `needle`):
`hay.splitOn needle` has more than one part exactly when `needle` occurs. -/
def containsStr (hay needle : String) : Bool :=
  (hay.splitOn needle).length > 1

/-- Numeric value of a list of decimal digit characters. -/
def digitsVal (cs : List Char) : Nat :=
  cs.foldl (fun a c => a * 10 + (c.toNat - 48)) 0

/-- Unsigned part of Python `float()` parsing, decimal notation:
digits with an optional single decimal point, at least one digit present. -/
def pyFloatUnsigned (t : String) : Option ℚ :=
  match t.splitOn "." with
  | [i] =>
      if i ≠ "" && i.toList.all Char.isDigit then
        some (digitsVal i.toList : ℚ)
      else none
  | [i, f] =>
      if (i ≠ "" || f ≠ "") && i.toList.all Char.isDigit
          && f.toList.all Char.isDigit then
        some ((digitsVal i.toList : ℚ) + (digitsVal f.toList : ℚ) / (10 : ℚ) ^ f.length)
      else none
  | _ => none

/-- Python builtin `float(s)` restricted to the decimal notation the
interaction grammar uses (`wait:<decimal>`): optional surrounding whitespace,
optional sign, digits with an optional fractional part.  Exponent, `inf` and
`nan` forms are outside the command grammar and not modelled. -/
def pyFloat (s : String) : Option ℚ :=
  let t := s.trim
  if t.startsWith "-" then (pyFloatUnsigned (t.drop 1)).map (fun q => -q)
  else if t.startsWith "+" then pyFloatUnsigned (t.drop 1)
  else pyFloatUnsigned t

/-- `interactions.InteractionValidationError` payload: message, suggestions,
examples. -/
structure IErr where
  message : String
  suggestions : List String
  examples : List String
deriving Repr, DecidableEq

/-- The error raised by `parse_interaction` for a command string without a
`:` separator (`interactions.py` lines 141-159). -/
def noColonErr (raw : String) : IErr :=
  { message := "Interaction '" ++ raw ++ "' missing required ':' separator. "
      ++ "All interactions must use 'type:target' format."
    suggestions :=
      [ "Change '" ++ raw ++ "' to 'press:" ++ raw ++ "' for key presses"
      , "Change '" ++ raw ++ "' to 'click:#" ++ raw ++ "' for element clicks by ID"
      , "Change '" ++ raw ++ "' to 'click:" ++ raw ++ "' for CSS selectors"
      , "Use 'type:text' for text input"
      , "Use 'wait:seconds' for delays" ]
    examples :=
      [ "press:" ++ raw ++ "  # if this is a key press"
      , "click:#" ++ raw ++ "  # if this is an element ID"
      , "click:." ++ raw ++ "  # if this is a CSS class"
      , "click:" ++ raw ++ "  # if this is a CSS selector" ] }

/-- Error for `press:` with empty key. -/
def pressErr : IErr :=
  { message := "Press action missing key name"
    suggestions := ["Specify which key to press", "Common keys: enter, f2, escape, ctrl+c"]
    examples := ["press:enter", "press:f2", "press:escape", "press:ctrl+c"] }

/-- Error for `click:` with empty selector. -/
def clickErr : IErr :=
  { message := "Click action missing selector"
    suggestions := ["Specify element selector", "Use #id, .class, or element name"]
    examples := ["click:#button", "click:.submit", "click:Button"] }

/-- Error for `hover:` with empty selector. -/
def hoverErr : IErr :=
  { message := "Hover action missing selector"
    suggestions := ["Specify element selector", "Use #id, .class, or element name"]
    examples := ["hover:#menu", "hover:.dropdown", "hover:Button"] }

/-- Error for negative `wait:` duration. -/
def waitNegErr (d : ℚ) : IErr :=
  { message := "Wait duration cannot be negative: " ++ toString d
    suggestions := ["Use positive numbers for wait times", "Common values: 0.1, 0.5, 1.0, 2.0"]
    examples := ["wait:0.5", "wait:1.0", "wait:2.0"] }

/-- Error for non-numeric `wait:` duration. -/
def waitNanErr (target : String) : IErr :=
  { message := "Wait duration '" ++ target ++ "' must be a number"
    suggestions := ["Use decimal numbers for wait times", "Common values: 0.1, 0.5, 1.0, 2.0"]
    examples := ["wait:0.5", "wait:1.0", "wait:2.0"] }

/-- Error for an unrecognised interaction kind. -/
def unknownErr (actionType : String) : IErr :=
  { message := "Unknown interaction type '" ++ actionType ++ "'"
    suggestions :=
      [ "Use 'press:' for keyboard interactions"
      , "Use 'click:' for mouse clicks"
      , "Use 'hover:' for hover actions"
      , "Use 'type:' for text input"
      , "Use 'wait:' for delays" ]
    examples := ["press:enter", "click:#button", "hover:.menu-item", "type:hello world", "wait:1.0"] }

/-- `InteractionValidator.parse_interaction` (`interactions.py` lines 127-229).
Inputs are typed strings here, so the not-a-string branch is unreachable.
On success the original string is returned unchanged. -/
def parse_interaction (s : String) : Except IErr String :=
  if !(containsStr s ":") then .error (noColonErr s)
  else
    let actionType := ((s.splitOn ":").headD "")
    let target := String.intercalate ":" ((s.splitOn ":").tail)
    if actionType = "press" then
      if target.trim = "" then .error pressErr else .ok s
    else if actionType = "click" then
      if target.trim = "" then .error clickErr else .ok s
    else if actionType = "hover" then
      if target.trim = "" then .error hoverErr else .ok s
    else if actionType = "type" then .ok s
    else if actionType = "wait" then
      match pyFloat target with
      | none => .error (waitNanErr target)
      | some d => if d < 0 then .error (waitNegErr d) else .ok s
    else .error (unknownErr actionType)

/-- Whether `parse_interaction` accepts a command string. -/
def parse_ok (s : String) : Bool :=
  match parse_interaction s with
  | .ok _ => true
  | .error _ => false

/-- One entry of `ValidationResult.errors`: the dict
`{"index": i, "interaction": s, **e.to_dict()}` built in `validate_sequence`. -/
structure SeqError where
  index : Nat
  interaction : String
  message : String
  suggestions : List String
  examples : List String
deriving Repr, DecidableEq

/-- `interactions.ValidationResult`. -/
structure ValidationResultI where
  is_valid : Bool
  validated_interactions : List String
  errors : List SeqError
  suggestions : List String
deriving Repr, DecidableEq

/-- The `for i, interaction in enumerate(interactions)` loop of
`validate_sequence`, collecting accepted strings and error entries. -/
def validate_sequence_aux (i : Nat) : List String → List String × List SeqError
  | [] => ([], [])
  | s :: rest =>
    let acc := validate_sequence_aux (i + 1) rest
    match parse_interaction s with
    | .ok t => (t :: acc.1, acc.2)
    | .error err => (acc.1, ⟨i, s, err.message, err.suggestions, err.examples⟩ :: acc.2)

/-- `InteractionValidator.validate_sequence` (`interactions.py` lines 231-265). -/
def validate_sequence (interactions : List String) : ValidationResultI :=
  let acc := validate_sequence_aux 0 interactions
  let seqSuggestions : List String :=
    if acc.2.length = 0 then []
    else
      [ "Check the interaction format documentation for examples"
      , "All interactions must use 'type:target' format with colon separator"
      , "Common mistake: using bare strings instead of prefixed format"
      , "Found " ++ toString acc.2.length ++ " format error(s) in "
          ++ toString interactions.length ++ " interaction(s)" ]
  { is_valid := acc.2.length = 0
    validated_interactions := acc.1
    errors := acc.2
    suggestions := seqSuggestions }

-- Helper lemmas about the sequence-validation loop.

theorem parse_interaction_ok_eq {s t : String}
    (h : parse_interaction s = .ok t) : t = s := by
  simp only [parse_interaction] at h
  repeat' split at h
  all_goals simp_all

theorem validate_sequence_aux_fst (i : Nat) (l : List String) :
    (validate_sequence_aux i l).1 = l.filter parse_ok := by
  induction l generalizing i with
  | nil => simp [validate_sequence_aux]
  | cons s rest ih =>
    simp only [validate_sequence_aux, List.filter]
    rcases h : parse_interaction s with e | t
    · have : parse_ok s = false := by simp [parse_ok, h]
      simp [this, h, ih]
    · have hs : parse_ok s = true := by simp [parse_ok, h]
      have := parse_interaction_ok_eq h
      subst this
      simp [hs, h, ih]

theorem validate_sequence_aux_snd (i : Nat) (l : List String) :
    (validate_sequence_aux i l).2.map (fun e => (e.index, e.interaction))
      = (List.enumFrom i l).filter (fun p => !parse_ok p.2) := by
  induction l generalizing i with
  | nil => simp [validate_sequence_aux]
  | cons s rest ih =>
    simp only [validate_sequence_aux, List.enumFrom, List.filter]
    rcases h : parse_interaction s with e | t
    · have : (!parse_ok s) = true := by simp [parse_ok, h]
      simp [this, h, ih]
    · have : (!parse_ok s) = false := by simp [parse_ok, h]
      simp [this, h, ih]

theorem validate_sequence_aux_len (i : Nat) (l : List String) :
    (validate_sequence_aux i l).1.length + (validate_sequence_aux i l).2.length
      = l.length := by
  induction l generalizing i with
  | nil => simp [validate_sequence_aux]
  | cons s rest ih =>
    have := ih (i + 1)
    simp only [validate_sequence_aux]
    rcases h : parse_interaction s with e | t <;> simp [h] <;> omega

theorem validate_sequence_aux_snd_interactions (i : Nat) (l : List String) :
    (validate_sequence_aux i l).2.map (fun e => e.interaction)
      = l.filter (fun s => !parse_ok s) := by
  induction l generalizing i with
  | nil => simp [validate_sequence_aux]
  | cons s rest ih =>
    simp only [validate_sequence_aux, List.filter]
    rcases h : parse_interaction s with e | t
    · have : (!parse_ok s) = true := by simp [parse_ok, h]
      simp [this, h, ih]
    · have : (!parse_ok s) = false := by simp [parse_ok, h]
      simp [this, h, ih]

/-- C2: `validate_sequence` produces exactly one error entry per input that
`parse_interaction` rejects, tagged with the input's original 0-based index;
every accepted input appears in `validated_interactions`; `is_valid` holds
iff the error list is empty; and on
`["f2", "click:#demo-button", "wait:-1.0"]` it yields `is_valid = false`,
exactly two errors at indices 0 and 2, and the middle element validated. -/
theorem validate_sequence_spec :
    (∀ l : List String,
      (validate_sequence l).errors.map (fun e => (e.index, e.interaction))
          = l.enum.filter (fun p => !parse_ok p.2)
        ∧ (validate_sequence l).validated_interactions = l.filter parse_ok
        ∧ ((validate_sequence l).is_valid = true ↔ (validate_sequence l).errors = []))
    ∧ ((validate_sequence ["f2", "click:#demo-button", "wait:-1.0"]).is_valid = false
        ∧ (validate_sequence ["f2", "click:#demo-button", "wait:-1.0"]).errors.map
            (fun e => e.index) = [0, 2]
        ∧ (validate_sequence ["f2", "click:#demo-button", "wait:-1.0"]).validated_interactions
            = ["click:#demo-button"]) := by
  constructor
  · intro l
    refine ⟨?_, ?_, ?_⟩
    · simpa [validate_sequence, List.enum] using validate_sequence_aux_snd 0 l
    · simpa [validate_sequence] using validate_sequence_aux_fst 0 l
    · simp [validate_sequence, List.length_eq_zero]
  · refine ⟨by with_unfolding_all rfl, by with_unfolding_all rfl,
      by with_unfolding_all rfl⟩

/-- C10: `validate_sequence` partitions its input exactly: the accepted
inputs (in order) form `validated_interactions`, the rejected inputs (in
order) are the `interaction` fields of the errors, and the two lengths sum
to the input length. -/
theorem validate_sequence_partition :
    ∀ l : List String,
      (validate_sequence l).validated_interactions.length
          + (validate_sequence l).errors.length = l.length
        ∧ (validate_sequence l).validated_interactions = l.filter parse_ok
        ∧ (validate_sequence l).errors.map (fun e => e.interaction)
            = l.filter (fun s => !parse_ok s) := by
  intro l
  refine ⟨?_, ?_, ?_⟩
  · simpa [validate_sequence] using validate_sequence_aux_len 0 l
  · simpa [validate_sequence] using validate_sequence_aux_fst 0 l
  · simpa [validate_sequence] using validate_sequence_aux_snd_interactions 0 l

/-- C3 counterexample: on input `"f2"` (no `:`), the missing-separator error
contains the suggestion `Use 'type:text' for text input`, which does not
embed the raw text `f2` at all; and no suggestion proposes the `click:.f2`,
`type:f2` or `wait:f2` forms the claim requires. -/
theorem parse_no_colon_counterexample :
    parse_interaction "f2" = .error (noColonErr "f2")
      ∧ "Use 'type:text' for text input" ∈ (noColonErr "f2").suggestions
      ∧ containsStr "Use 'type:text' for text input" "f2" = false
      ∧ (noColonErr "f2").suggestions.all (fun s => !containsStr s "click:.f2") = true
      ∧ (noColonErr "f2").suggestions.all (fun s => !containsStr s "type:f2") = true
      ∧ (noColonErr "f2").suggestions.all (fun s => !containsStr s "wait:f2") = true := by
  refine ⟨by with_unfolding_all rfl, by with_unfolding_all decide,
    by with_unfolding_all rfl, by with_unfolding_all rfl,
    by with_unfolding_all rfl, by with_unfolding_all rfl⟩

/-- C3 (amended): for every input without a `:` separator, `parse_interaction`
fails with the missing-separator error whose suggestions are exactly: three
raw-embedding rewrites (`press:<raw>`, `click:#<raw>`, `click:<raw>`) plus the
generic guidance `Use 'type:text' for text input` and
`Use 'wait:seconds' for delays` (which do not embed the raw text), and whose
examples propose `press:<raw>`, `click:#<raw>`, `click:.<raw>` and
`click:<raw>`, each with an inline comment. -/
theorem parse_no_colon_spec (s : String) (h : containsStr s ":" = false) :
    parse_interaction s = .error (noColonErr s)
      ∧ (noColonErr s).suggestions =
          [ "Change '" ++ s ++ "' to 'press:" ++ s ++ "' for key presses"
          , "Change '" ++ s ++ "' to 'click:#" ++ s ++ "' for element clicks by ID"
          , "Change '" ++ s ++ "' to 'click:" ++ s ++ "' for CSS selectors"
          , "Use 'type:text' for text input"
          , "Use 'wait:seconds' for delays" ]
      ∧ (noColonErr s).examples =
          [ "press:" ++ s ++ "  # if this is a key press"
          , "click:#" ++ s ++ "  # if this is an element ID"
          , "click:." ++ s ++ "  # if this is a CSS class"
          , "click:" ++ s ++ "  # if this is a CSS selector" ] := by
  refine ⟨?_, rfl, rfl⟩
  unfold parse_interaction
  simp [h]

/-- C3 witness: the amended statement instantiated at the concrete input
`"f2"`. -/
theorem parse_no_colon_spec_witness :
    parse_interaction "f2" = .error (noColonErr "f2")
      ∧ (noColonErr "f2").suggestions =
          [ "Change 'f2' to 'press:f2' for key presses"
          , "Change 'f2' to 'click:#f2' for element clicks by ID"
          , "Change 'f2' to 'click:f2' for CSS selectors"
          , "Use 'type:text' for text input"
          , "Use 'wait:seconds' for delays" ]
      ∧ (noColonErr "f2").examples =
          [ "press:f2  # if this is a key press"
          , "click:#f2  # if this is an element ID"
          , "click:.f2  # if this is a CSS class"
          , "click:f2  # if this is a CSS selector" ] := by
  have h := parse_no_colon_spec "f2" (by with_unfolding_all rfl)
  simpa using h

/-- A parsed XML element tree as observed by the code: tag (with XML
namespace prefix as parsed), direct text content, attribute names, and
child elements.  Attribute values are never read by the code, only
membership of attribute names is tested. -/
inductive SvgElem where
  | node (tag : String) (text : Option String) (attrs : List String)
      (children : List SvgElem)

/-- Tag of an element. -/
def SvgElem.tag : SvgElem → String
  | .node t _ _ _ => t

/-- Direct text content of an element (`elem.text`, `None` when absent). -/
def SvgElem.text : SvgElem → Option String
  | .node _ x _ _ => x

/-- Attribute names of an element (`elem.attrib` keys). -/
def SvgElem.attrs : SvgElem → List String
  | .node _ _ a _ => a

/-- Child elements. -/
def SvgElem.children : SvgElem → List SvgElem
  | .node _ _ _ c => c

mutual

/-- Python `element.iter()`: the element itself followed by all its
descendants in document (preorder) order. -/
def SvgElem.iter : SvgElem → List SvgElem
  | .node t x a cs => .node t x a cs :: iterChildren cs

/-- `iter` mapped over a list of elements, concatenated. -/
def iterChildren : List SvgElem → List SvgElem
  | [] => []
  | c :: cs => c.iter ++ iterChildren cs

end

/-- Python tag namespace stripping used throughout the code:
`elem.tag.split("}")[-1] if "}" in elem.tag else elem.tag`. -/
def stripNs (tag : String) : String :=
  if containsStr tag "\x7d" then (tag.splitOn "\x7d").getLastD tag else tag

/-- One step of the `element_counts[tag] = element_counts.get(tag, 0) + 1`
dict update, preserving Python dict insertion order. -/
def bumpCount : List (String × Nat) → String → List (String × Nat)
  | [], k => [(k, 1)]
  | (k', n) :: rest, k =>
      if k' = k then (k', n + 1) :: rest else (k', n) :: bumpCount rest k

/-- `utils.count_svg_elements` (also re-implemented verbatim inside
`detection._detect_rendering_patterns`): counts elements of the tree by
namespace-stripped tag, as an insertion-ordered association list. -/
def count_svg_elements (root : SvgElem) : List (String × Nat) :=
  root.iter.foldl (fun acc e => bumpCount acc (stripNs e.tag)) []

/-- Count of a given stripped tag in a tree (`elements.get(tag, 0)`). -/
def tagCount (root : SvgElem) (t : String) : Nat :=
  ((count_svg_elements root).lookup t).getD 0

/-- The set of stripped tags occurring in a tree (`set(counts.keys())`). -/
def tagFinset (root : SvgElem) : Finset String :=
  ((count_svg_elements root).map Prod.fst).toFinset

/-- The observations the validation code makes of one file on disk:
existence, byte size, raw byte content, filename, suffix, whether the bytes
decode as text, and the result of XML parsing (`none` = `ET.parse` fails). -/
structure FileD where
  present : Bool
  name : String
  size : Nat
  content : List Nat
  suffix : String
  decodable : Bool
  parsed : Option SvgElem

/-- `utils.calculate_file_hash`: SHA-256 of the content, used only through
equality comparisons, hence modelled injectively by the content itself. -/
def calculate_file_hash (f : FileD) : List Nat :=
  f.content

/-- The `1 - |sizeA - sizeB| / max(sizeA, sizeB, 1)` size-similarity
formula shared by `calculate_file_similarity` and the
`calculate_svg_similarity` parse-failure fallback. -/
def sizeSimilarity (s1 s2 : Nat) : ℚ :=
  1 - |(s1 : ℚ) - (s2 : ℚ)| / ((max (max s1 s2) 1 : ℕ) : ℚ)

/-- `comparison.calculate_svg_similarity` (`comparison.py` lines 57-89):
per-tag count similarity averaged over the union of tag sets; any failure
(parse error on either file, or the impossible empty union making the
average divide by zero) falls back to plain size similarity. -/
def calculate_svg_similarity (svg1 svg2 : FileD) : ℚ :=
  match svg1.parsed, svg2.parsed with
  | some r1, some r2 =>
      let tags := tagFinset r1 ∪ tagFinset r2
      if tags = ∅ then sizeSimilarity svg1.size svg2.size
      else
        (∑ t ∈ tags,
            (1 - |(tagCount r1 t : ℚ) - (tagCount r2 t : ℚ)|
              / ((max (max (tagCount r1 t) (tagCount r2 t)) 1 : ℕ) : ℚ)))
          / (tags.card : ℚ)
  | _, _ => sizeSimilarity svg1.size svg2.size

/-- `comparison.calculate_file_similarity` (`comparison.py` lines 15-54). -/
def calculate_file_similarity (file1 file2 : FileD) : ℚ :=
  if !file1.present || !file2.present then 0
  else
    let sizeSim := sizeSimilarity file1.size file2.size
    let hashSim : ℚ :=
      if calculate_file_hash file1 = calculate_file_hash file2 then 1 else 0
    if hashSim = 1 then 1
    else
      let structSim : ℚ :=
        if file1.suffix.toLower = ".svg" && file2.suffix.toLower = ".svg" then
          calculate_svg_similarity file1 file2
        else 1 / 2
      min 1 (max 0 (3 / 10 * sizeSim + 4 / 10 * hashSim + 3 / 10 * structSim))

theorem sizeSimilarity_comm (s1 s2 : Nat) :
    sizeSimilarity s1 s2 = sizeSimilarity s2 s1 := by
  unfold sizeSimilarity
  rw [abs_sub_comm, Nat.max_comm s1 s2]

theorem calculate_svg_similarity_comm (a b : FileD) :
    calculate_svg_similarity a b = calculate_svg_similarity b a := by
  unfold calculate_svg_similarity
  rcases ha : a.parsed with _ | ra <;> rcases hb : b.parsed with _ | rb <;>
    simp only [sizeSimilarity_comm a.size b.size]
  rw [Finset.union_comm (tagFinset ra) (tagFinset rb)]
  by_cases he : tagFinset rb ∪ tagFinset ra = ∅
  · simp [he, sizeSimilarity_comm a.size b.size]
  · simp only [if_neg he]
    congr 1
    exact Finset.sum_congr rfl fun t _ => by
      rw [abs_sub_comm, Nat.max_comm (tagCount ra t) (tagCount rb t)]

/-- C4: `calculate_file_similarity` is reflexive on existing files (the
content hashes coincide, short-circuiting to 1.0) and symmetric in its two
arguments. -/
theorem calculate_file_similarity_refl_symm :
    (∀ f : FileD, f.present = true → calculate_file_similarity f f = 1)
      ∧ ∀ a b : FileD,
          calculate_file_similarity a b = calculate_file_similarity b a := by
  constructor
  · intro f hf
    simp [calculate_file_similarity, hf]
  · intro a b
    cases ha : a.present <;> cases hb : b.present
    · simp [calculate_file_similarity, ha, hb]
    · simp [calculate_file_similarity, ha, hb]
    · simp [calculate_file_similarity, ha, hb]
    · by_cases hc : calculate_file_hash a = calculate_file_hash b
      · simp [calculate_file_similarity, ha, hb, hc]
      · have hc' : ¬ calculate_file_hash b = calculate_file_hash a :=
          fun h => hc h.symm
        by_cases hs1 : a.suffix.toLower = ".svg" <;>
          by_cases hs2 : b.suffix.toLower = ".svg" <;>
            simp [calculate_file_similarity, ha, hb, hc, hc', hs1, hs2,
              sizeSimilarity_comm a.size b.size, calculate_svg_similarity_comm a b]

/-- A sample file used to instantiate similarity theorems. -/
def sampleFileA : FileD :=
  { present := true, name := "home_baseline_1.svg", size := 3, content := [10, 20, 30]
    suffix := ".svg", decodable := true, parsed := none }

/-- A second sample file, differing from `sampleFileA` in content. -/
def sampleFileB : FileD :=
  { present := true, name := "b.svg", size := 2, content := [10, 20]
    suffix := ".svg", decodable := true, parsed := none }

/-- C4 witness: reflexivity and symmetry instantiated at concrete files. -/
theorem calculate_file_similarity_refl_symm_witness :
    (sampleFileA.present = true ∧ calculate_file_similarity sampleFileA sampleFileA = 1)
      ∧ calculate_file_similarity sampleFileA sampleFileB
          = calculate_file_similarity sampleFileB sampleFileA :=
  ⟨⟨rfl, calculate_file_similarity_refl_symm.1 sampleFileA rfl⟩,
    calculate_file_similarity_refl_symm.2 sampleFileA sampleFileB⟩

/-- `capture.ScreenshotFormat`. -/
inductive Fmt where
  | svg
  | png
  | both
deriving Repr, DecidableEq

/-- The observations the validation and detection code makes of a
`capture.CaptureResult`: success flag, artifact path (with the file's
observable state inlined), recorded byte size, output format, and context
label.  The remaining fields (timestamps, app context, cache flags, error
message) are never read by the code under verification. -/
structure Capture where
  success : Bool
  path : Option FileD
  file_size_bytes : Nat
  format : Fmt
  context : String

/-- `types.QualityMetrics`. -/
structure QualityMetrics where
  file_size_score : ℚ
  content_complexity_score : ℚ
  structure_score : ℚ
  completeness_score : ℚ
  overall_score : ℚ

/-- `utils.normalize_file_size_score`: piecewise-linear normalization of a
byte count - 0 below 2000, ramp to 1 at 10000, flat through 500000, linear
decay to 0 at 2000000. -/
def normalize_file_size_score (file_size : Nat) : ℚ :=
  if file_size < 2000 then 0
  else if 10000 ≤ file_size ∧ file_size ≤ 500000 then 1
  else if file_size < 10000 then ((file_size : ℚ) - 2000) / 8000
  else max 0 (1 - ((file_size : ℚ) - 500000) / 1500000)

/-- Descendants of an element (`root.findall(".//tag")` searches these;
the root itself is excluded). -/
def descendants (root : SvgElem) : List SvgElem :=
  iterChildren root.children

/-- `comparison.analyze_svg_complexity`: weighted blend of element count,
tag diversity and text length, each normalized and capped at 1.  A missing
or unparsable file hits the exception handler and scores 0.5.
`root.findall(".//text")` matches descendants whose raw (namespaced) tag is
exactly `text`. -/
def analyze_svg_complexity (f : FileD) : ℚ :=
  if !f.present then 1 / 2
  else
    match f.parsed with
    | none => 1 / 2
    | some root =>
        let totalElements := root.iter.length
        let elementTypes := tagFinset root
        let textElements := (descendants root).filter (fun e => e.tag = "text")
        let totalTextLength := (textElements.map (fun e => (e.text.getD "").length)).sum
        min 1 ((totalElements : ℚ) / 100) * (1 / 2)
          + min 1 ((elementTypes.card : ℚ) / 10) * (3 / 10)
          + min 1 ((totalTextLength : ℚ) / 500) * (2 / 10)

/-- `comparison.analyze_content_complexity`: vector files delegate to
`analyze_svg_complexity`; other files score by size against 50 KB; a stat
on a missing file raises and the handler returns 0.5. -/
def analyze_content_complexity (f : FileD) : ℚ :=
  if f.suffix.toLower = ".svg" then analyze_svg_complexity f
  else if !f.present then 1 / 2
  else min 1 ((f.size : ℚ) / 50000)

/-- `comparison.validate_svg_structure`: fraction of four structural checks
passed.  `ET.ParseError` scores 0.0; any other exception (such as reading a
missing file) scores 0.5. -/
def validate_svg_structure (f : FileD) : ℚ :=
  if !f.present then 1 / 2
  else
    match f.parsed with
    | none => 0
    | some root =>
        let checks : List Bool :=
          [ root.tag.endsWith "svg"
          , root.attrs.contains "viewBox"
          , decide (root.iter.length > 1)
          , root.attrs.contains "xmlns"
              || containsStr root.tag "http://www.w3.org/2000/svg" ]
        ((checks.countP id : ℕ) : ℚ) / 4

/-- `comparison.analyze_file_structure`: vector formats delegate to
`validate_svg_structure`; other formats score 1.0 for a non-empty existing
file and 0.0 otherwise. -/
def analyze_file_structure (f : FileD) (format : Fmt) : ℚ :=
  if format = Fmt.svg then validate_svg_structure f
  else if f.present = true ∧ 0 < f.size then 1 else 0

/-- `comparison.analyze_content_completeness`: a stat on a missing file
raises and scores 0.5.  For vector files, `analyze_svg_completeness` always
scores 0.5: its shape-search XPath (`.//*[local-name()=...]`) uses a
predicate ElementTree does not support, so the call raises and the handler
returns 0.5 whether or not the file parses.  Other files score by size. -/
def analyze_content_completeness (f : FileD) : ℚ :=
  if !f.present then 1 / 2
  else if f.suffix.toLower = ".svg" then 1 / 2
  else if f.size < 1000 then 3 / 10
  else if f.size > 10000 then 1
  else (f.size : ℚ) / 10000

/-- `quality.calculate_quality_metrics` (`quality.py` lines 13-59). -/
def calculate_quality_metrics (shot : Capture) : QualityMetrics :=
  match shot.path with
  | none => ⟨0, 0, 0, 0, 0⟩
  | some f =>
      let fss := normalize_file_size_score shot.file_size_bytes
      let ccs := analyze_content_complexity f
      let ss := analyze_file_structure f shot.format
      let cs := analyze_content_completeness f
      ⟨fss, ccs, ss, cs, 2 / 10 * fss + 3 / 10 * ccs + 3 / 10 * ss + 2 / 10 * cs⟩

theorem normalize_file_size_score_range (n : Nat) :
    0 ≤ normalize_file_size_score n ∧ normalize_file_size_score n ≤ 1 := by
  unfold normalize_file_size_score
  split_ifs with h1 h2 h3
  · norm_num
  · norm_num
  · have hn2 : (2000 : ℚ) ≤ (n : ℚ) := by exact_mod_cast Nat.not_lt.mp h1
    have hn10 : (n : ℚ) ≤ 10000 := by exact_mod_cast Nat.le_of_lt h3
    constructor
    · apply div_nonneg <;> linarith
    · rw [div_le_one (by norm_num)]; linarith
  · have h5 : (500000 : ℚ) ≤ (n : ℚ) := by
      have hge : 500000 < n := by omega
      exact_mod_cast hge.le
    refine ⟨le_max_left 0 _, max_le (by norm_num) ?_⟩
    have : (0 : ℚ) ≤ ((n : ℚ) - 500000) / 1500000 :=
      div_nonneg (by linarith) (by norm_num)
    linarith

theorem min1_nonneg_le_one {x : ℚ} (hx : 0 ≤ x) :
    0 ≤ min 1 x ∧ min 1 x ≤ 1 :=
  ⟨le_min (by norm_num) hx, min_le_left 1 x⟩

theorem analyze_content_complexity_range (f : FileD) :
    0 ≤ analyze_content_complexity f ∧ analyze_content_complexity f ≤ 1 := by
  unfold analyze_content_complexity analyze_svg_complexity
  split_ifs with h1 h2 h3
  · norm_num
  · rcases hp : f.parsed with _ | root
    · norm_num
    · simp only []
      obtain ⟨e1, e2⟩ := min1_nonneg_le_one
        (div_nonneg (Nat.cast_nonneg ((SvgElem.iter root).length)) (by norm_num : (0:ℚ) ≤ 100))
      obtain ⟨d1, d2⟩ := min1_nonneg_le_one
        (div_nonneg (Nat.cast_nonneg (tagFinset root).card) (by norm_num : (0:ℚ) ≤ 10))
      obtain ⟨t1, t2⟩ := min1_nonneg_le_one
        (div_nonneg (Nat.cast_nonneg _) (by norm_num : (0:ℚ) ≤ 500))
      constructor <;> linarith
  · norm_num
  · exact min1_nonneg_le_one (div_nonneg (Nat.cast_nonneg f.size) (by norm_num))

theorem analyze_file_structure_range (f : FileD) (fmt : Fmt) :
    0 ≤ analyze_file_structure f fmt ∧ analyze_file_structure f fmt ≤ 1 := by
  unfold analyze_file_structure validate_svg_structure
  split_ifs with h1 h2 h3
  · norm_num
  · rcases hp : f.parsed with _ | root
    · norm_num
    · simp only []
      constructor
      · positivity
      · rw [div_le_one (by norm_num)]
        have hlen := List.countP_le_length (l := [ root.tag.endsWith "svg"
          , root.attrs.contains "viewBox"
          , decide (root.iter.length > 1)
          , root.attrs.contains "xmlns"
              || containsStr root.tag "http://www.w3.org/2000/svg" ]) (p := id)
        have : ([ root.tag.endsWith "svg"
          , root.attrs.contains "viewBox"
          , decide (root.iter.length > 1)
          , root.attrs.contains "xmlns"
              || containsStr root.tag "http://www.w3.org/2000/svg" ]).length = 4 := rfl
        have h4 : ([ root.tag.endsWith "svg"
          , root.attrs.contains "viewBox"
          , decide (root.iter.length > 1)
          , root.attrs.contains "xmlns"
              || containsStr root.tag "http://www.w3.org/2000/svg" ]).countP id ≤ 4 := by
          omega
        exact_mod_cast h4
  · norm_num
  · norm_num

theorem analyze_content_completeness_range (f : FileD) :
    0 ≤ analyze_content_completeness f ∧ analyze_content_completeness f ≤ 1 := by
  unfold analyze_content_completeness
  split_ifs with h1 h2 h3 h4
  · norm_num
  · norm_num
  · norm_num
  · norm_num
  · have hle : (f.size : ℚ) ≤ 10000 := by exact_mod_cast Nat.not_lt.mp h4
    constructor
    · positivity
    · rw [div_le_one (by norm_num)]; linarith

/-- C5: the quality metrics of a capture with an existing artifact satisfy
`overall = 0.2 * size + 0.3 * complexity + 0.3 * structure
+ 0.2 * completeness` exactly (rational arithmetic), and the overall score
lies in [0, 1]. -/
theorem calculate_quality_metrics_overall (shot : Capture) (f : FileD)
    (hp : shot.path = some f) :
    (calculate_quality_metrics shot).overall_score
        = 2 / 10 * (calculate_quality_metrics shot).file_size_score
          + 3 / 10 * (calculate_quality_metrics shot).content_complexity_score
          + 3 / 10 * (calculate_quality_metrics shot).structure_score
          + 2 / 10 * (calculate_quality_metrics shot).completeness_score
      ∧ 0 ≤ (calculate_quality_metrics shot).overall_score
      ∧ (calculate_quality_metrics shot).overall_score ≤ 1 := by
  obtain ⟨s1, s2⟩ := normalize_file_size_score_range shot.file_size_bytes
  obtain ⟨c1, c2⟩ := analyze_content_complexity_range f
  obtain ⟨t1, t2⟩ := analyze_file_structure_range f shot.format
  obtain ⟨p1, p2⟩ := analyze_content_completeness_range f
  have hq : calculate_quality_metrics shot =
      ⟨normalize_file_size_score shot.file_size_bytes, analyze_content_complexity f,
        analyze_file_structure f shot.format, analyze_content_completeness f,
        2 / 10 * normalize_file_size_score shot.file_size_bytes
          + 3 / 10 * analyze_content_complexity f
          + 3 / 10 * analyze_file_structure f shot.format
          + 2 / 10 * analyze_content_completeness f⟩ := by
    simp [calculate_quality_metrics, hp]
  rw [hq]
  refine ⟨rfl, ?_, ?_⟩ <;> linarith

/-- A sample capture with an existing artifact, instantiating C5. -/
def sampleCapture : Capture :=
  { success := true, path := some sampleFileA, file_size_bytes := 3
    format := Fmt.svg, context := "home" }

/-- C5 witness: the overall-score identity and bounds at a concrete
capture. -/
theorem calculate_quality_metrics_overall_witness :
    (calculate_quality_metrics sampleCapture).overall_score
        = 2 / 10 * (calculate_quality_metrics sampleCapture).file_size_score
          + 3 / 10 * (calculate_quality_metrics sampleCapture).content_complexity_score
          + 3 / 10 * (calculate_quality_metrics sampleCapture).structure_score
          + 2 / 10 * (calculate_quality_metrics sampleCapture).completeness_score
      ∧ 0 ≤ (calculate_quality_metrics sampleCapture).overall_score
      ∧ (calculate_quality_metrics sampleCapture).overall_score ≤ 1 :=
  calculate_quality_metrics_overall sampleCapture sampleFileA rfl

/-- `detection.Issue`: category, description, severity, detection confidence
and suggestions.  The free-form `metadata` dict is not modelled. -/
structure IssueM where
  category : String
  description : String
  severity : String
  confidence : ℚ
  suggestions : List String
deriving Repr, DecidableEq

/-- `detection.DetectionResult`: issues, overall confidence, and the
`analysis_methods` list recorded in `analysis_metadata` (empty for the
failed-capture and analysis-error short-circuits, which record no methods). -/
structure DetectionResultM where
  issues_detected : List IssueM
  detection_confidence : ℚ
  analysis_methods : List String
deriving Repr, DecidableEq

/-- `ProactiveErrorDetector` configuration: the file-size and content
thresholds plus the SVG-analysis toggle from `__init__`. -/
structure DetCfg where
  critical_min : Nat
  warning_min : Nat
  optimal_min : Nat
  optimal_max : Nat
  critical_max : Nat
  min_text_chars : ℚ
  min_elements : ℚ
  min_element_types : ℚ
  text_density_min : ℚ
  complexity_min : ℚ
  enable_svg_analysis : Bool

/-- The default thresholds of `ProactiveErrorDetector.__init__`. -/
def defaultDetCfg : DetCfg :=
  { critical_min := 1000, warning_min := 2000, optimal_min := 5000
    optimal_max := 1000000, critical_max := 5000000
    min_text_chars := 5, min_elements := 3, min_element_types := 2
    text_density_min := 1 / 10, complexity_min := 2 / 10
    enable_svg_analysis := true }

/-- `ProactiveErrorDetector._analyze_file_size`: the five-tier threshold
ladder over the recorded byte size. -/
def analyze_file_size (cfg : DetCfg) (file_size : Nat) : List IssueM :=
  if file_size < cfg.critical_min then
    [⟨"empty_screen",
      "Screenshot file too small (" ++ toString file_size ++ " bytes) - likely empty screen",
      "critical", 9 / 10,
      ["Check if app UI is properly rendered", "Increase capture delay",
        "Verify terminal content before capture"]⟩]
  else if file_size < cfg.warning_min then
    [⟨"empty_screen",
      "Screenshot file small (" ++ toString file_size ++ " bytes) - possible content issue",
      "warning", 7 / 10,
      ["Verify app content is fully loaded", "Check for UI rendering delays"]⟩]
  else if file_size > cfg.critical_max then
    [⟨"capture_quality",
      "Screenshot file very large (" ++ toString file_size ++ " bytes) - possible capture issue",
      "critical", 8 / 10,
      ["Check for infinite content or loops", "Verify terminal size settings",
        "Consider format optimization"]⟩]
  else if file_size > cfg.optimal_max then
    [⟨"capture_quality",
      "Screenshot file large (" ++ toString file_size ++ " bytes) - consider optimization",
      "info", 6 / 10,
      ["Consider PNG format for complex visuals", "Check for unnecessary content"]⟩]
  else []

/-- `ProactiveErrorDetector._validate_svg_structure_integrity`: viewBox and
width/height attribute checks on the root element. -/
def validate_svg_structure_integrity (root : SvgElem) : List IssueM :=
  (if !(root.attrs.contains "viewBox") then
      [⟨"rendering_failures",
        "SVG missing viewBox - may cause rendering inconsistencies",
        "warning", 7 / 10,
        ["Check SVG generation process", "Verify terminal capture settings"]⟩]
    else [])
  ++ (if !(root.attrs.contains "width" && root.attrs.contains "height") then
      [⟨"rendering_failures",
        "SVG missing width/height attributes - may affect display",
        "info", 6 / 10,
        ["Verify SVG generation includes dimensions",
          "Check if viewBox provides sufficient sizing"]⟩]
    else [])

/-- `ProactiveErrorDetector._analyze_svg_structure`: text presence, element
count, tag diversity, and root-attribute checks; an XML syntax error or a
text-decoding error each produce one critical `rendering_failures` issue
(the interpolated exception text is not modelled). -/
def analyze_svg_structure (cfg : DetCfg) (f : FileD) : List IssueM :=
  if !f.decodable then
    [⟨"rendering_failures",
      "SVG file encoding issue - possible corruption",
      "critical", 9 / 10,
      ["Retry capture with clean terminal state",
        "Check for special characters in output"]⟩]
  else
    match f.parsed with
    | none =>
        [⟨"rendering_failures",
          "SVG parsing error - corrupted file structure: ",
          "critical", 9 / 10,
          ["Retry screenshot capture", "Check terminal output for errors",
            "Verify app rendering completion"]⟩]
    | some root =>
        let text_elements := root.iter.filter
          (fun e => e.tag.endsWith "text" || e.tag = "text")
        let visible_text := text_elements.filterMap (fun e =>
          match e.text with
          | some tx => if tx ≠ "" && tx.trim ≠ "" then some tx else none
          | none => none)
        let all_elements := root.iter
        let unique_element_types := tagFinset root
        (if visible_text.length = 0 then
            [⟨"empty_screen",
              "No visible text found in SVG - possible empty screen",
              "warning", 8 / 10,
              ["Check if app displays text content", "Verify UI state before capture",
                "Consider if text-free UI is expected"]⟩]
          else [])
        ++ (if (all_elements.length : ℚ) < cfg.min_elements then
            [⟨"empty_screen",
              "Few SVG elements (" ++ toString all_elements.length
                ++ ") - possible incomplete render",
              "warning", 7 / 10,
              ["Wait for UI rendering to complete", "Check for loading states",
                "Verify app initialization"]⟩]
          else [])
        ++ (if (unique_element_types.card : ℚ) < cfg.min_element_types then
            [⟨"layout_issues",
              "Low element diversity (" ++ toString unique_element_types.card
                ++ " types) - possible layout issue",
              "info", 6 / 10,
              ["Verify UI complexity is as expected",
                "Check for proper component rendering"]⟩]
          else [])
        ++ validate_svg_structure_integrity root

/-- `ProactiveErrorDetector._detect_rendering_patterns`: one warning per
tag (other than the literal tag `svg`) whose count exceeds 80% of all
elements. -/
def detect_rendering_patterns (root : SvgElem) : List IssueM :=
  let element_counts := count_svg_elements root
  let total_elements := (element_counts.map Prod.snd).sum
  element_counts.filterMap (fun p =>
    if p.1 ≠ "svg" ∧ (total_elements : ℚ) * (8 / 10) < (p.2 : ℚ) then
      some ⟨"rendering_failures",
        "Excessive " ++ p.1 ++ " elements (" ++ toString p.2
          ++ ") - possible rendering loop",
        "warning", 7 / 10,
        ["Check for infinite loops in app rendering",
          "Verify app termination conditions"]⟩
    else none)

/-- `ProactiveErrorDetector._analyze_content_patterns`: text-density check
followed by rendering-pattern detection; any parse failure is downgraded to
one info-grade `analysis_error` issue (the interpolated exception text and
the 3-decimal density formatting are not modelled). -/
def analyze_content_patterns (cfg : DetCfg) (f : FileD) : List IssueM :=
  if !f.decodable then
    [⟨"analysis_error", "Content pattern analysis failed: ", "info", 3 / 10,
      ["File may be valid despite analysis error"]⟩]
  else
    match f.parsed with
    | none =>
        [⟨"analysis_error", "Content pattern analysis failed: ", "info", 3 / 10,
          ["File may be valid despite analysis error"]⟩]
    | some root =>
        let text_elements := root.iter.filter
          (fun e => e.tag.endsWith "text" || e.tag = "text")
        let total_text_length := (text_elements.map (fun e => (e.text.getD "").length)).sum
        (if 0 < total_text_length then
            (if (total_text_length : ℚ) / ((max f.size 1 : ℕ) : ℚ) < cfg.text_density_min then
              [⟨"layout_issues",
                "Low text density (" ++ toString ((total_text_length : ℚ) / ((max f.size 1 : ℕ) : ℚ))
                  ++ ") - possible truncated content",
                "info", 5 / 10,
                ["Verify all expected text is rendered", "Check for text wrapping issues"]⟩]
            else [])
          else [])
        ++ detect_rendering_patterns root

/-- The error-state indicator substrings scanned by
`_analyze_context_patterns`. -/
def error_indicators : List String :=
  ["error", "fail", "crash", "timeout", "exception"]

/-- `ProactiveErrorDetector._analyze_context_patterns`: at most one warning
(the loop reports once and breaks) when the lowercased context contains an
error indicator. -/
def analyze_context_patterns (context : String) : List IssueM :=
  if error_indicators.any (fun ind => containsStr context.toLower ind) then
    [⟨"capture_quality",
      "Context name '" ++ context ++ "' suggests error state - verify capture validity",
      "warning", 6 / 10,
      ["Verify app is in expected state",
        "Check if error context is intentional for testing"]⟩]
  else []

/-- `ProactiveErrorDetector._detect_platform_issues`: the modulo-1024
heuristic plus context analysis (`CaptureResult` always has a `context`
attribute, so the `hasattr` guard always passes). -/
def detect_platform_issues (r : Capture) : List IssueM :=
  (if 0 < r.file_size_bytes ∧ r.file_size_bytes % 1024 = 0 then
      [⟨"capture_quality",
        "File size (" ++ toString r.file_size_bytes
          ++ ") exactly divisible by 1024 - possible platform truncation",
        "info", 4 / 10,
        ["Verify complete capture on current platform",
          "Compare with captures on other platforms"]⟩]
    else [])
  ++ analyze_context_patterns r.context

/-- `severity_weights.get(issue.severity, 0.5)`. -/
def severityWeight (s : String) : ℚ :=
  if s = "critical" then 1
  else if s = "warning" then 7 / 10
  else if s = "info" then 4 / 10
  else 1 / 2

/-- The `total_weight` accumulator of `_calculate_detection_confidence`. -/
def totalWeightOf (issues : List IssueM) : ℚ :=
  (issues.map (fun i => severityWeight i.severity)).sum

/-- The `weighted_confidence` accumulator of
`_calculate_detection_confidence`. -/
def weightedConfidenceOf (issues : List IssueM) : ℚ :=
  (issues.map (fun i => i.confidence * severityWeight i.severity)).sum

/-- `ProactiveErrorDetector._calculate_detection_confidence`
(`detection.py` lines 610-626).  Note the divisor: `max(total_weight, 1)`,
not `total_weight`. -/
def calculate_detection_confidence (issues : List IssueM) : ℚ :=
  if issues = [] then 1
  else weightedConfidenceOf issues / max (totalWeightOf issues) 1

/-- The severity-weighted average of issue confidences as the specification
describes it (weights critical=1.0, warning=0.7, info=0.4): weighted sum
divided by the sum of the weights.  Stated from the spec text, for
comparison with `calculate_detection_confidence`. -/
def specSeverityWeightedAverage (issues : List IssueM) : ℚ :=
  weightedConfidenceOf issues / totalWeightOf issues

/-- The failed-capture short-circuit result of `detect_common_issues`. -/
def failedCaptureResult : DetectionResultM :=
  { issues_detected :=
      [⟨"capture_failure", "Screenshot capture failed - cannot analyze",
        "critical", 1,
        ["Retry capture", "Check app state", "Verify terminal access"]⟩]
    detection_confidence := 1
    analysis_methods := [] }

/-- Whether the analysis pipeline of `detect_common_issues` completes
without raising: the only statement in the `try` block that can raise out
of its own handler is the artifact `open` in `_analyze_svg_structure`,
reached when SVG analysis is enabled, the format is SVG, and the artifact
file is missing. -/
def analysis_ok (cfg : DetCfg) (r : Capture) : Bool :=
  match r.path with
  | none => true
  | some p =>
      !(r.success && cfg.enable_svg_analysis && decide (r.format = Fmt.svg) && !p.present)

/-- `ProactiveErrorDetector.detect_common_issues`
(`detection.py` lines 127-221). -/
def detect_common_issues (cfg : DetCfg) (r : Capture) : DetectionResultM :=
  match r.path with
  | none => failedCaptureResult
  | some p =>
      if !r.success then failedCaptureResult
      else if cfg.enable_svg_analysis && decide (r.format = Fmt.svg) && !p.present then
        { issues_detected :=
            [⟨"analysis_error", "Error during algorithmic analysis: ",
              "warning", 8 / 10, ["Retry analysis", "Check file integrity"]⟩]
          detection_confidence := 1 / 2
          analysis_methods := [] }
      else
        let issues :=
          analyze_file_size cfg r.file_size_bytes
          ++ (if cfg.enable_svg_analysis && decide (r.format = Fmt.svg) then
                analyze_svg_structure cfg p ++ analyze_content_patterns cfg p
              else [])
          ++ detect_platform_issues r
        { issues_detected := issues
          detection_confidence := calculate_detection_confidence issues
          analysis_methods :=
            ["file_size_analysis"]
            ++ (if cfg.enable_svg_analysis && decide (r.format = Fmt.svg) then
                  ["svg_structure_analysis", "content_pattern_analysis"]
                else [])
            ++ ["platform_issue_detection"] }

/-- C8: for a capture that failed or produced no artifact path,
`detect_common_issues` returns exactly one critical `capture_failure` issue
with confidence 1.0, detection confidence 1.0, and records no analysis
methods. -/
theorem detect_common_issues_failed (cfg : DetCfg) (r : Capture)
    (h : r.success = false ∨ r.path = none) :
    detect_common_issues cfg r = failedCaptureResult
      ∧ failedCaptureResult.issues_detected =
          [⟨"capture_failure", "Screenshot capture failed - cannot analyze",
            "critical", 1,
            ["Retry capture", "Check app state", "Verify terminal access"]⟩]
      ∧ failedCaptureResult.detection_confidence = 1
      ∧ failedCaptureResult.analysis_methods = [] := by
  refine ⟨?_, rfl, rfl, rfl⟩
  unfold detect_common_issues
  rcases hp : r.path with _ | p
  · rfl
  · rcases h with h | h
    · simp [h]
    · rw [h] at hp; exact absurd hp (by simp)

/-- A capture whose renderer reported failure. -/
def failedCapture : Capture :=
  { success := false, path := none, file_size_bytes := 0
    format := Fmt.svg, context := "home" }

/-- C8 witness: the failed-capture behaviour at a concrete capture. -/
theorem detect_common_issues_failed_witness :
    (failedCapture.success = false ∨ failedCapture.path = none)
      ∧ detect_common_issues defaultDetCfg failedCapture = failedCaptureResult
      ∧ failedCaptureResult.issues_detected =
          [⟨"capture_failure", "Screenshot capture failed - cannot analyze",
            "critical", 1,
            ["Retry capture", "Check app state", "Verify terminal access"]⟩]
      ∧ failedCaptureResult.detection_confidence = 1
      ∧ failedCaptureResult.analysis_methods = [] :=
  ⟨Or.inl rfl, detect_common_issues_failed defaultDetCfg failedCapture (Or.inl rfl)⟩

-- Confidence bounds for every issue the pipeline can emit.

theorem severityWeight_pos (s : String) : 0 < severityWeight s := by
  unfold severityWeight
  split_ifs <;> norm_num

theorem totalWeightOf_nonneg (issues : List IssueM) : 0 ≤ totalWeightOf issues := by
  induction issues with
  | nil => simp [totalWeightOf]
  | cons i rest ih =>
    simp only [totalWeightOf, List.map_cons, List.sum_cons]
    have := severityWeight_pos i.severity
    simp only [totalWeightOf] at ih
    linarith

theorem analyze_file_size_conf_le (cfg : DetCfg) (n : Nat) :
    ∀ i ∈ analyze_file_size cfg n, i.confidence ≤ 1 := by
  intro i hi
  unfold analyze_file_size at hi
  split_ifs at hi <;> simp only [List.mem_singleton, List.not_mem_nil] at hi <;>
    first
      | exact absurd hi not_false
      | (subst hi; norm_num)

theorem validate_svg_structure_integrity_conf_le (root : SvgElem) :
    ∀ i ∈ validate_svg_structure_integrity root, i.confidence ≤ 1 := by
  intro i hi
  unfold validate_svg_structure_integrity at hi
  simp only [List.mem_append] at hi
  rcases hi with hi | hi <;> split_ifs at hi <;>
    simp only [List.mem_singleton, List.not_mem_nil] at hi <;>
    first
      | exact absurd hi not_false
      | (subst hi; norm_num)

theorem analyze_svg_structure_conf_le (cfg : DetCfg) (f : FileD) :
    ∀ i ∈ analyze_svg_structure cfg f, i.confidence ≤ 1 := by
  intro i hi
  unfold analyze_svg_structure at hi
  split_ifs at hi
  · simp only [List.mem_singleton] at hi
    subst hi; norm_num
  · rcases hp : f.parsed with _ | root <;> rw [hp] at hi
    · simp only [List.mem_singleton] at hi
      subst hi; norm_num
    · simp only [List.mem_append] at hi
      rcases hi with ((hi | hi) | hi) | hi
      · split_ifs at hi <;> simp only [List.mem_singleton, List.not_mem_nil] at hi <;>
          first
            | exact absurd hi not_false
            | (subst hi; norm_num)
      · split_ifs at hi <;> simp only [List.mem_singleton, List.not_mem_nil] at hi <;>
          first
            | exact absurd hi not_false
            | (subst hi; norm_num)
      · split_ifs at hi <;> simp only [List.mem_singleton, List.not_mem_nil] at hi <;>
          first
            | exact absurd hi not_false
            | (subst hi; norm_num)
      · exact validate_svg_structure_integrity_conf_le root i hi

theorem detect_rendering_patterns_conf_le (root : SvgElem) :
    ∀ i ∈ detect_rendering_patterns root, i.confidence ≤ 1 := by
  intro i hi
  unfold detect_rendering_patterns at hi
  simp only [List.mem_filterMap] at hi
  obtain ⟨p, _, hp⟩ := hi
  split at hp
  · rw [Option.some.injEq] at hp
    subst hp; norm_num
  · exact absurd hp (by simp)

theorem analyze_content_patterns_conf_le (cfg : DetCfg) (f : FileD) :
    ∀ i ∈ analyze_content_patterns cfg f, i.confidence ≤ 1 := by
  intro i hi
  unfold analyze_content_patterns at hi
  split_ifs at hi
  · simp only [List.mem_singleton] at hi
    subst hi; norm_num
  · rcases hp : f.parsed with _ | root <;> rw [hp] at hi
    · simp only [List.mem_singleton] at hi
      subst hi; norm_num
    · simp only [List.mem_append] at hi
      rcases hi with hi | hi
      · split_ifs at hi <;> simp only [List.mem_singleton, List.not_mem_nil] at hi <;>
          first
            | exact absurd hi not_false
            | (subst hi; norm_num)
      · exact detect_rendering_patterns_conf_le root i hi

theorem analyze_context_patterns_conf_le (ctx : String) :
    ∀ i ∈ analyze_context_patterns ctx, i.confidence ≤ 1 := by
  intro i hi
  unfold analyze_context_patterns at hi
  split_ifs at hi <;> simp only [List.mem_singleton, List.not_mem_nil] at hi <;>
    first
      | exact absurd hi not_false
      | (subst hi; norm_num)

theorem detect_platform_issues_conf_le (r : Capture) :
    ∀ i ∈ detect_platform_issues r, i.confidence ≤ 1 := by
  intro i hi
  unfold detect_platform_issues at hi
  simp only [List.mem_append] at hi
  rcases hi with hi | hi
  · split_ifs at hi <;> simp only [List.mem_singleton, List.not_mem_nil] at hi <;>
      first
        | exact absurd hi not_false
        | (subst hi; norm_num)
  · exact analyze_context_patterns_conf_le r.context i hi

theorem detect_common_issues_conf_le (cfg : DetCfg) (r : Capture) :
    ∀ i ∈ (detect_common_issues cfg r).issues_detected, i.confidence ≤ 1 := by
  intro i hi
  unfold detect_common_issues at hi
  rcases hp : r.path with _ | p <;> simp only [hp] at hi
  · simp only [failedCaptureResult, List.mem_singleton] at hi
    subst hi; norm_num
  · by_cases hs : (!r.success) = true
    · rw [if_pos hs] at hi
      simp only [failedCaptureResult, List.mem_singleton] at hi
      subst hi; norm_num
    · rw [if_neg hs] at hi
      by_cases he :
          (cfg.enable_svg_analysis && decide (r.format = Fmt.svg) && !p.present) = true
      · rw [if_pos he] at hi
        simp only [List.mem_singleton] at hi
        subst hi; norm_num
      · rw [if_neg he] at hi
        simp only [List.mem_append] at hi
        rcases hi with (hi | hi) | hi
        · exact analyze_file_size_conf_le cfg r.file_size_bytes i hi
        · by_cases hsvg :
              (cfg.enable_svg_analysis && decide (r.format = Fmt.svg)) = true
          · rw [if_pos hsvg] at hi
            simp only [List.mem_append] at hi
            rcases hi with hi | hi
            · exact analyze_svg_structure_conf_le cfg p i hi
            · exact analyze_content_patterns_conf_le cfg p i hi
          · rw [if_neg hsvg] at hi
            exact absurd hi (by simp)
        · exact detect_platform_issues_conf_le r i hi

theorem calculate_detection_confidence_ne_nil {issues : List IssueM}
    (h : issues ≠ []) :
    calculate_detection_confidence issues
      = weightedConfidenceOf issues / max (totalWeightOf issues) 1 := by
  cases issues with
  | nil => exact absurd rfl h
  | cons a as => rfl

theorem weightedConfidence_le (issues : List IssueM)
    (hle : ∀ i ∈ issues, i.confidence ≤ 1) :
    weightedConfidenceOf issues ≤ totalWeightOf issues := by
  induction issues with
  | nil => simp [weightedConfidenceOf, totalWeightOf]
  | cons i rest ih =>
    have h1 := hle i (List.mem_cons_self i rest)
    have h2 := ih (fun j hj => hle j (List.mem_cons_of_mem i hj))
    have hw := severityWeight_pos i.severity
    have hm : i.confidence * severityWeight i.severity ≤ severityWeight i.severity :=
      mul_le_of_le_one_left (le_of_lt hw) h1
    simp only [weightedConfidenceOf, totalWeightOf, List.map_cons, List.sum_cons] at h2 ⊢
    linarith

theorem detection_confidence_strict (issues : List IssueM)
    (hle : ∀ i ∈ issues, i.confidence ≤ 1)
    (hex : ∃ i ∈ issues, i.severity = "critical" ∧ i.confidence < 1) :
    calculate_detection_confidence issues < 1 := by
  obtain ⟨j, hjmem, hcrit, hconf⟩ := hex
  obtain ⟨l1, l2, rfl⟩ := List.append_of_mem hjmem
  have hwj : severityWeight j.severity = 1 := by rw [severityWeight, if_pos hcrit]
  have hW1 : weightedConfidenceOf l1 ≤ totalWeightOf l1 :=
    weightedConfidence_le _ (fun i hi => hle i (by simp [hi]))
  have hW2 : weightedConfidenceOf l2 ≤ totalWeightOf l2 :=
    weightedConfidence_le _ (fun i hi => hle i (by simp [hi]))
  have ht1 := totalWeightOf_nonneg l1
  have ht2 := totalWeightOf_nonneg l2
  have happ : weightedConfidenceOf (l1 ++ j :: l2)
      = weightedConfidenceOf l1
        + (j.confidence * severityWeight j.severity + weightedConfidenceOf l2) := by
    simp [weightedConfidenceOf]
  have happt : totalWeightOf (l1 ++ j :: l2)
      = totalWeightOf l1 + (severityWeight j.severity + totalWeightOf l2) := by
    simp [totalWeightOf]
  have htot : 1 ≤ totalWeightOf (l1 ++ j :: l2) := by
    rw [happt, hwj]; linarith
  have hstrict : weightedConfidenceOf (l1 ++ j :: l2)
      < totalWeightOf (l1 ++ j :: l2) := by
    rw [happ, happt, hwj]
    have hj1 : j.confidence * 1 < 1 := by simpa using hconf
    linarith
  have hne : (l1 ++ j :: l2) ≠ [] := by simp
  rw [calculate_detection_confidence_ne_nil hne, max_eq_left htot]
  exact (div_lt_one (lt_of_lt_of_le one_pos htot)).mpr hstrict

/-- C1 (amended): for every capture on which the analysis pipeline completes
(the artifact is readable whenever SVG analysis runs), the detection
confidence is 1.0 on an empty issue list and otherwise equals the
severity-weighted confidence sum divided by `max(total_weight, 1)` - not by
the weight sum itself, which the divisor clamps up to 1 - and it is
strictly below 1.0 whenever a critical issue with confidence below 1.0 was
detected. -/
theorem detection_confidence_spec (cfg : DetCfg) (r : Capture)
    (h : analysis_ok cfg r = true) :
    ((detect_common_issues cfg r).issues_detected = [] →
        (detect_common_issues cfg r).detection_confidence = 1)
      ∧ ((detect_common_issues cfg r).issues_detected ≠ [] →
        (detect_common_issues cfg r).detection_confidence
          = weightedConfidenceOf (detect_common_issues cfg r).issues_detected
              / max (totalWeightOf (detect_common_issues cfg r).issues_detected) 1)
      ∧ ((∃ i ∈ (detect_common_issues cfg r).issues_detected,
          i.severity = "critical" ∧ i.confidence < 1) →
        (detect_common_issues cfg r).detection_confidence < 1) := by
  have hcalc : (detect_common_issues cfg r).detection_confidence
      = calculate_detection_confidence (detect_common_issues cfg r).issues_detected := by
    unfold detect_common_issues
    rcases hp : r.path with _ | p <;> simp only [hp]
    · norm_num [failedCaptureResult, calculate_detection_confidence,
        weightedConfidenceOf, totalWeightOf, severityWeight]
    · by_cases hs : (!r.success) = true
      · simp only [if_pos hs]
        norm_num [failedCaptureResult, calculate_detection_confidence,
          weightedConfidenceOf, totalWeightOf, severityWeight]
      · simp only [if_neg hs]
        by_cases he :
            (cfg.enable_svg_analysis && decide (r.format = Fmt.svg) && !p.present) = true
        · exfalso
          have hsucc : r.success = true := by
            cases hr : r.success
            · rw [hr] at hs; simp at hs
            · rfl
          unfold analysis_ok at h
          rw [hp, hsucc] at h
          simp only [Bool.true_and] at h
          rw [he] at h
          simp at h
        · simp only [if_neg he]
  refine ⟨?_, ?_, ?_⟩
  · intro hnil
    rw [hcalc, hnil]
    rfl
  · intro hne
    rw [hcalc, calculate_detection_confidence_ne_nil hne]
  · intro hex
    rw [hcalc]
    exact detection_confidence_strict _ (detect_common_issues_conf_le cfg r) hex

/-- An existing non-vector artifact of 1,500,001 bytes. -/
def cexFile : FileD :=
  { present := true, name := "shot.png", size := 1500001, content := [0]
    suffix := ".png", decodable := true, parsed := none }

/-- A successful capture of `cexFile` whose only detected issue is the
info-grade large-file issue (confidence 0.6, severity weight 0.4). -/
def cexCapture : Capture :=
  { success := true, path := some cexFile, file_size_bytes := 1500001
    format := Fmt.png, context := "home" }

/-- C1 counterexample: on a capture whose single issue is info-grade
(weight 0.4), the code divides the weighted sum by `max(0.4, 1) = 1`,
yielding detection confidence 0.24, while the severity-weighted average of
issue confidences the claim describes is 0.6. -/
theorem detection_confidence_counterexample :
    (detect_common_issues defaultDetCfg cexCapture).issues_detected ≠ []
      ∧ (detect_common_issues defaultDetCfg cexCapture).detection_confidence = 24 / 100
      ∧ specSeverityWeightedAverage
          (detect_common_issues defaultDetCfg cexCapture).issues_detected = 6 / 10
      ∧ (detect_common_issues defaultDetCfg cexCapture).detection_confidence
          ≠ specSeverityWeightedAverage
              (detect_common_issues defaultDetCfg cexCapture).issues_detected := by
  refine ⟨by with_unfolding_all decide, by with_unfolding_all decide,
    by with_unfolding_all decide, by with_unfolding_all decide⟩

/-- C1 witness: the amended confidence formula instantiated at a concrete
capture (the same one as the counterexample, whose pipeline completes). -/
theorem detection_confidence_spec_witness :
    analysis_ok defaultDetCfg cexCapture = true
      ∧ (((detect_common_issues defaultDetCfg cexCapture).issues_detected = [] →
            (detect_common_issues defaultDetCfg cexCapture).detection_confidence = 1)
        ∧ ((detect_common_issues defaultDetCfg cexCapture).issues_detected ≠ [] →
            (detect_common_issues defaultDetCfg cexCapture).detection_confidence
              = weightedConfidenceOf
                  (detect_common_issues defaultDetCfg cexCapture).issues_detected
                / max (totalWeightOf
                    (detect_common_issues defaultDetCfg cexCapture).issues_detected) 1)
        ∧ ((∃ i ∈ (detect_common_issues defaultDetCfg cexCapture).issues_detected,
              i.severity = "critical" ∧ i.confidence < 1) →
            (detect_common_issues defaultDetCfg cexCapture).detection_confidence < 1)) :=
  ⟨by decide, detection_confidence_spec defaultDetCfg cexCapture (by decide)⟩

/-- C9: in a parsed vector document (root container tag `svg`), any tag
other than the root's that accounts for more than 80% of all elements makes
the content-pattern analysis emit a warning naming the dominant tag and
mentioning a possible rendering loop. -/
theorem rendering_loop_warning (cfg : DetCfg) (f : FileD) (root : SvgElem)
    (t : String) (c : Nat)
    (hd : f.decodable = true) (hf : f.parsed = some root)
    (hroot : stripNs root.tag = "svg")
    (hmem : (t, c) ∈ count_svg_elements root)
    (ht : t ≠ stripNs root.tag)
    (hdom : ((((count_svg_elements root).map Prod.snd).sum : ℕ) : ℚ) * (8 / 10)
        < (c : ℚ)) :
    ∃ i ∈ analyze_content_patterns cfg f,
      i.severity = "warning"
        ∧ i.description = "Excessive " ++ t ++ " elements (" ++ toString c
            ++ ") - possible rendering loop" := by
  have hts : t ≠ "svg" := by rwa [hroot] at ht
  have hrp : (⟨"rendering_failures",
      "Excessive " ++ t ++ " elements (" ++ toString c ++ ") - possible rendering loop",
      "warning", 7 / 10,
      ["Check for infinite loops in app rendering",
        "Verify app termination conditions"]⟩ : IssueM)
      ∈ detect_rendering_patterns root := by
    unfold detect_rendering_patterns
    simp only [List.mem_filterMap]
    exact ⟨(t, c), hmem, by rw [if_pos ⟨hts, hdom⟩]⟩
  refine ⟨⟨"rendering_failures",
      "Excessive " ++ t ++ " elements (" ++ toString c ++ ") - possible rendering loop",
      "warning", 7 / 10,
      ["Check for infinite loops in app rendering",
        "Verify app termination conditions"]⟩, ?_, rfl, rfl⟩
  simp only [analyze_content_patterns, hd, hf, Bool.not_true, Bool.false_eq_true,
    if_false, List.mem_append]
  exact Or.inr hrp

/-- A vector document whose `rect` elements are 17 of 20 elements (85%). -/
def loopDoc : SvgElem :=
  .node "svg" none ["viewBox", "width", "height"]
    (List.replicate 17 (.node "rect" none [] [])
      ++ [.node "g" none [] [], .node "g" none [] []])

/-- A parsed artifact file holding `loopDoc`. -/
def loopFile : FileD :=
  { present := true, name := "loop.svg", size := 5000, content := [1]
    suffix := ".svg", decodable := true, parsed := some loopDoc }

/-- C9 witness: the rendering-loop warning fires on a document where one
tag makes up 85% of all elements. -/
theorem rendering_loop_warning_witness :
    (loopFile.decodable = true ∧ loopFile.parsed = some loopDoc
      ∧ stripNs loopDoc.tag = "svg"
      ∧ ("rect", 17) ∈ count_svg_elements loopDoc
      ∧ "rect" ≠ stripNs loopDoc.tag
      ∧ ((((count_svg_elements loopDoc).map Prod.snd).sum : ℕ) : ℚ) * (8 / 10)
          < ((17 : ℕ) : ℚ))
      ∧ ∃ i ∈ analyze_content_patterns defaultDetCfg loopFile,
          i.severity = "warning"
            ∧ i.description = "Excessive " ++ "rect" ++ " elements ("
                ++ toString (17 : ℕ) ++ ") - possible rendering loop" :=
  ⟨⟨rfl, rfl, by with_unfolding_all decide, by with_unfolding_all decide,
      by with_unfolding_all decide, by with_unfolding_all decide⟩,
    rendering_loop_warning defaultDetCfg loopFile loopDoc "rect" 17 rfl rfl
      (by with_unfolding_all decide) (by with_unfolding_all decide)
      (by with_unfolding_all decide) (by with_unfolding_all decide)⟩

/-- `types.ValidationResult` (external validation): validity, confidence,
stage name and issue strings.  The `metrics` dict and timestamp are not
modelled; interpolated numbers inside issue strings are elided. -/
structure VResult where
  is_valid : Bool
  confidence : ℚ
  validation_type : String
  issues : List String
deriving Repr, DecidableEq

/-- `ExternalValidationSuite` state: the listings of the baseline and
platform reference directories (each file carrying its observable state)
and the quality thresholds from `__init__`. -/
structure SuiteCfg where
  baselineFiles : List FileD
  platformFiles : List FileD
  file_size_min : ℚ
  content_complexity_min : ℚ
  structure_min : ℚ
  completeness_min : ℚ
  overall_min : ℚ

/-- The default quality thresholds of `ExternalValidationSuite.__init__`,
with empty reference directories. -/
def defaultSuiteCfg : SuiteCfg :=
  { baselineFiles := [], platformFiles := []
    file_size_min := 3 / 10, content_complexity_min := 4 / 10
    structure_min := 5 / 10, completeness_min := 6 / 10, overall_min := 5 / 10 }

/-- Python `max` of a non-empty list (call sites guarantee non-emptiness;
`max` of an empty list would raise). -/
def pyMax (l : List ℚ) : ℚ :=
  match l with
  | [] => 0
  | x :: xs => xs.foldl max x

/-- Python `min` of a non-empty list. -/
def pyMin (l : List ℚ) : ℚ :=
  match l with
  | [] => 0
  | x :: xs => xs.foldl min x

/-- The statistics dict returned by `utils.analyze_platform_consistency`. -/
structure ConsistencyStats where
  variance : ℚ
  consistency_score : ℚ
  min_similarity : ℚ
  mean_similarity : ℚ
deriving Repr, DecidableEq

/-- `utils.analyze_platform_consistency`: mean, population variance,
minimum, and consistency score `(1 - variance) * min` of a similarity list
(the empty-list early return carries no mean; 0 stands for the absent
key). -/
def analyze_platform_consistency (similarities : List ℚ) : ConsistencyStats :=
  match similarities with
  | [] => ⟨1, 0, 0, 0⟩
  | s :: rest =>
      let all := s :: rest
      let mean := all.sum / (all.length : ℚ)
      let variance := ((all.map (fun x => (x - mean) ^ 2)).sum) / (all.length : ℚ)
      let minS := pyMin all
      ⟨variance, (1 - variance) * minS, minS, mean⟩

/-- `ExternalValidationSuite._compare_with_human_baselines`
(`validation.py` lines 142-217).  The `{context}_baseline_*` glob over the
baseline directory is modelled as a name-prefix filter over its listing;
the low-similarity issue string's interpolated statistics are elided. -/
def compare_with_human_baselines (cfg : SuiteCfg) (shot : Capture) : VResult :=
  match shot.path with
  | none => ⟨false, 0, "human_baseline", ["Screenshot path is None"]⟩
  | some sp =>
      let baseline_files := cfg.baselineFiles.filter
        (fun b => b.name.startsWith (shot.context ++ "_baseline_"))
      match baseline_files with
      | [] => ⟨true, 3 / 10, "human_baseline",
          ["No human baseline found for comparison"]⟩
      | b :: bs =>
          let sims := (b :: bs).map (fun bf => calculate_file_similarity sp bf)
          let max_similarity := pyMax sims
          let is_valid := decide (7 / 10 ≤ max_similarity)
          ⟨is_valid, max_similarity, "human_baseline",
            if is_valid then [] else ["Low similarity to baselines: "]⟩

/-- `ExternalValidationSuite._validate_platform_consistency`
(`validation.py` lines 219-297), under the same directory-listing model;
platform-name extraction feeds only the unmodelled metrics dict. -/
def validate_platform_consistency (cfg : SuiteCfg) (shot : Capture) : VResult :=
  match shot.path with
  | none => ⟨false, 0, "platform_consistency", ["Screenshot path is None"]⟩
  | some sp =>
      let platform_refs := cfg.platformFiles.filter
        (fun b => b.name.startsWith (shot.context ++ "_platform_"))
      if platform_refs.length < 2 then
        ⟨true, 4 / 10, "platform_consistency",
          ["Insufficient platform references for consistency check"]⟩
      else
        let sims := platform_refs.map (fun rf => calculate_file_similarity sp rf)
        let st := analyze_platform_consistency sims
        let is_consistent :=
          decide (st.variance < 3 / 10) && decide (6 / 10 < st.min_similarity)
        ⟨is_consistent, st.consistency_score, "platform_consistency",
          if is_consistent then [] else ["Platform inconsistency detected: "]⟩

/-- `ExternalValidationSuite._assess_screenshot_quality_algorithmic`
(`validation.py` lines 299-358): quality metrics checked against the five
thresholds in dict order; interpolated scores in issue strings elided. -/
def assess_screenshot_quality (cfg : SuiteCfg) (shot : Capture) : VResult :=
  match shot.path with
  | none => ⟨false, 0, "quality_assessment", ["Screenshot file does not exist"]⟩
  | some sp =>
      if !sp.present then
        ⟨false, 0, "quality_assessment", ["Screenshot file does not exist"]⟩
      else
        let qm := calculate_quality_metrics shot
        let issues :=
          (if qm.file_size_score < cfg.file_size_min then
              ["file_size score below threshold"] else [])
          ++ (if qm.content_complexity_score < cfg.content_complexity_min then
              ["content_complexity score below threshold"] else [])
          ++ (if qm.structure_score < cfg.structure_min then
              ["structure score below threshold"] else [])
          ++ (if qm.completeness_score < cfg.completeness_min then
              ["completeness score below threshold"] else [])
          ++ (if qm.overall_score < cfg.overall_min then
              ["overall score below threshold"] else [])
        ⟨issues.length = 0, qm.overall_score, "quality_assessment", issues⟩

/-- `ExternalValidationSuite.validate_against_references`
(`validation.py` lines 70-140): runs the three sub-validations and
aggregates confidence as their mean and validity as their conjunction.  The
generic `except` branch is unreachable in this model: none of the modelled
sub-validations raises. -/
def validate_against_references (cfg : SuiteCfg) (shot : Capture) : VResult :=
  if !shot.success || shot.path.isNone then
    ⟨false, 0, "external_reference", ["Screenshot capture failed - cannot validate"]⟩
  else
    let b := compare_with_human_baselines cfg shot
    let p := validate_platform_consistency cfg shot
    let q := assess_screenshot_quality cfg shot
    ⟨b.is_valid && p.is_valid && q.is_valid,
      (b.confidence + p.confidence + q.confidence) / 3,
      "multi_point_external",
      b.issues ++ p.issues ++ q.issues⟩

/-- C6: on a successful capture with an artifact path, the aggregated
validation confidence is the arithmetic mean of the three sub-validation
confidences and the aggregated validity is their conjunction. -/
theorem validate_against_references_aggregation (cfg : SuiteCfg) (shot : Capture)
    (hs : shot.success = true) (hp : shot.path.isNone = false) :
    (validate_against_references cfg shot).confidence
        = ((compare_with_human_baselines cfg shot).confidence
            + (validate_platform_consistency cfg shot).confidence
            + (assess_screenshot_quality cfg shot).confidence) / 3
      ∧ (validate_against_references cfg shot).is_valid
        = ((compare_with_human_baselines cfg shot).is_valid
            && (validate_platform_consistency cfg shot).is_valid
            && (assess_screenshot_quality cfg shot).is_valid) := by
  unfold validate_against_references
  rw [hs, hp]
  exact ⟨rfl, rfl⟩

/-- C6 witness: the aggregation identities at a concrete capture. -/
theorem validate_against_references_aggregation_witness :
    (sampleCapture.success = true ∧ sampleCapture.path.isNone = false)
      ∧ (validate_against_references defaultSuiteCfg sampleCapture).confidence
          = ((compare_with_human_baselines defaultSuiteCfg sampleCapture).confidence
              + (validate_platform_consistency defaultSuiteCfg sampleCapture).confidence
              + (assess_screenshot_quality defaultSuiteCfg sampleCapture).confidence) / 3
      ∧ (validate_against_references defaultSuiteCfg sampleCapture).is_valid
          = ((compare_with_human_baselines defaultSuiteCfg sampleCapture).is_valid
              && (validate_platform_consistency defaultSuiteCfg sampleCapture).is_valid
              && (assess_screenshot_quality defaultSuiteCfg sampleCapture).is_valid) :=
  ⟨⟨rfl, rfl⟩,
    validate_against_references_aggregation defaultSuiteCfg sampleCapture rfl rfl⟩

/-- C7: human-baseline comparison returns validity true with confidence 0.3
and a noted issue when no baseline matches the `{context}_baseline_*`
pattern; otherwise its validity is (maximum similarity at least 0.7) and
its confidence is the maximum similarity over all matches. -/
theorem human_baseline_comparison_spec (cfg : SuiteCfg) (shot : Capture)
    (sp : FileD) (hp : shot.path = some sp) :
    (cfg.baselineFiles.filter
        (fun b => b.name.startsWith (shot.context ++ "_baseline_")) = [] →
      compare_with_human_baselines cfg shot
        = ⟨true, 3 / 10, "human_baseline",
            ["No human baseline found for comparison"]⟩)
      ∧ ∀ b bs,
          cfg.baselineFiles.filter
              (fun x => x.name.startsWith (shot.context ++ "_baseline_")) = b :: bs →
            (compare_with_human_baselines cfg shot).is_valid
                = decide (7 / 10
                    ≤ pyMax ((b :: bs).map (fun bf => calculate_file_similarity sp bf)))
              ∧ (compare_with_human_baselines cfg shot).confidence
                = pyMax ((b :: bs).map (fun bf => calculate_file_similarity sp bf)) := by
  constructor
  · intro hnil
    unfold compare_with_human_baselines
    simp only [hp, hnil]
  · intro b bs hcons
    unfold compare_with_human_baselines
    simp [hp, hcons]

/-- The freshly captured artifact of the byte-identical-baseline scenario:
same bytes as the stored baseline `sampleFileA`. -/
def capturedFile : FileD :=
  { present := true, name := "home_current.svg", size := 3, content := [10, 20, 30]
    suffix := ".svg", decodable := true, parsed := none }

/-- A suite whose baseline directory holds exactly `sampleFileA`
(named `home_baseline_1.svg`). -/
def baselineSuiteCfg : SuiteCfg :=
  { baselineFiles := [sampleFileA], platformFiles := []
    file_size_min := 3 / 10, content_complexity_min := 4 / 10
    structure_min := 5 / 10, completeness_min := 6 / 10, overall_min := 5 / 10 }

/-- The capture of `capturedFile` in context `home`. -/
def baselineShot : Capture :=
  { success := true, path := some capturedFile, file_size_bytes := 3
    format := Fmt.svg, context := "home" }

/-- C7 witness: with one byte-identical baseline on file, the comparison
returns validity true with confidence 1.0. -/
theorem human_baseline_comparison_spec_witness :
    baselineShot.path = some capturedFile
      ∧ baselineSuiteCfg.baselineFiles.filter
          (fun x => x.name.startsWith (baselineShot.context ++ "_baseline_"))
          = [sampleFileA]
      ∧ (compare_with_human_baselines baselineSuiteCfg baselineShot).is_valid = true
      ∧ (compare_with_human_baselines baselineSuiteCfg baselineShot).confidence = 1 := by
  have h := (human_baseline_comparison_spec baselineSuiteCfg baselineShot
    capturedFile rfl).2 sampleFileA [] (by with_unfolding_all rfl)
  exact ⟨rfl, by with_unfolding_all rfl,
    h.1.trans (by with_unfolding_all rfl), h.2.trans (by with_unfolding_all rfl)⟩
